import Mathlib

/-!
Verification of the Nanglo image-detection app (src/hello.py).

The program has two core functions, `encode_image` and `analyze_image`,
plus a presentation loop in the upload tab.  We shallow-embed them here:

* JSON values are the inductive `JVal` (numbers as rationals, objects as
  association lists, which matches parsed-JSON dictionaries).
* Python subscripting / `in` / `len` on JSON values are `pySubscript`,
  `pyContains`, `pyLen`, `pyIndex0`; `none` means the operation raises.
* The HTTP layer (`requests.post` + `raise_for_status` + `.json()`) is a
  parameter `http : VisionRequest → HttpOutcome` with outcomes: success
  (parsed JSON body), a `requests` exception carrying a message (transport
  error or bad HTTP status), or a JSON-decode failure of the body.
* The PIL JPEG encoder is a parameter `jpegSave : Img → Option (List Nat)`
  over an abstract image type (`none` means PIL raises); the base64 layer
  (`base64.b64encode(...).decode('utf-8')`) is modelled concretely.
* UI side effects (`st.error`, the POST) are recorded in an `Effect` list;
  an unhandled exception escaping the function is `PyResult.thrown`.
-/

/-- JSON values as produced by parsing a response body.  Numbers are
rationals (JSON numbers are decimal literals), objects are association
lists of string keys. -/
inductive JVal where
  | jnull
  | jbool (b : Bool)
  | jnum (q : ℚ)
  | jstr (s : String)
  | jarr (xs : List JVal)
  | jobj (kvs : List (String × JVal))
deriving Repr

mutual

/-- Structural equality test on JSON values (Python `==` on parsed JSON). -/
def JVal.beq : JVal → JVal → Bool
  | .jnull, .jnull => true
  | .jbool a, .jbool b => a == b
  | .jnum a, .jnum b => a == b
  | .jstr a, .jstr b => a == b
  | .jarr xs, .jarr ys => JVal.beqList xs ys
  | .jobj xs, .jobj ys => JVal.beqKV xs ys
  | _, _ => false

/-- Elementwise equality test on lists of JSON values. -/
def JVal.beqList : List JVal → List JVal → Bool
  | [], [] => true
  | x :: xs, y :: ys => JVal.beq x y && JVal.beqList xs ys
  | _, _ => false

/-- Elementwise equality test on key-value lists. -/
def JVal.beqKV : List (String × JVal) → List (String × JVal) → Bool
  | [], [] => true
  | (k, v) :: xs, (l, w) :: ys => k == l && JVal.beq v w && JVal.beqKV xs ys
  | _, _ => false

end

instance : BEq JVal := ⟨JVal.beq⟩

/-- Python `v[k]` for a string key `k`: a dictionary lookup.  `none` means
the subscript raises (KeyError on a missing key, TypeError on non-dicts). -/
def pySubscript (k : String) : JVal → Option JVal
  | .jobj kvs => kvs.lookup k
  | _ => none

/-- Python `k in v` for a string `k`: key membership for dictionaries,
element membership for lists, substring test for strings.  `none` means
the test raises (TypeError on numbers, booleans, null). -/
def pyContains (k : String) : JVal → Option Bool
  | .jobj kvs => some (kvs.any (fun kv => kv.1 == k))
  | .jarr xs => some (xs.any (fun x => x == .jstr k))
  | .jstr s => some (k.isEmpty || (s.splitOn k).length ≥ 2)
  | _ => none

/-- Python `len(v)`.  `none` means `len` raises (numbers, booleans, null). -/
def pyLen : JVal → Option Nat
  | .jarr xs => some xs.length
  | .jobj kvs => some kvs.length
  | .jstr s => some s.length
  | _ => none

/-- Python `v[0]`: first element of a list, first character of a string
(as a one-character string).  `none` means it raises (IndexError on an
empty sequence, KeyError/TypeError otherwise). -/
def pyIndex0 : JVal → Option JVal
  | .jarr (x :: _) => some x
  | .jstr s => if s.isEmpty then none else some (.jstr (String.singleton s.front))
  | _ => none

/-- Alphabet of standard base64 (RFC 4648), as used by `base64.b64encode`. -/
def b64Alphabet : List Char :=
  "ABCDEFGHIJKLMNOPQRSTUVWXYZabcdefghijklmnopqrstuvwxyz0123456789+/".toList

/-- Character for a six-bit group. -/
def sextetChar (n : Nat) : Char := b64Alphabet.getD n 'A'

/-- Value of a base64 alphabet character, `none` for characters outside
the alphabet (in particular for the padding character). -/
def sextetVal (c : Char) : Option Nat := b64Alphabet.indexOf? c

/-- Standard base64 encoding of a byte list, three bytes to four
characters, with `=` padding and no line breaks — the behaviour of
Python's `base64.b64encode`. -/
def b64encodeList : List Nat → List Char
  | [] => []
  | [b0] => [sextetChar (b0 / 4), sextetChar (b0 % 4 * 16), '=', '=']
  | [b0, b1] =>
      [sextetChar (b0 / 4), sextetChar (b0 % 4 * 16 + b1 / 16),
       sextetChar (b1 % 16 * 4), '=']
  | b0 :: b1 :: b2 :: rest =>
      sextetChar (b0 / 4) :: sextetChar (b0 % 4 * 16 + b1 / 16) ::
      sextetChar (b1 % 16 * 4 + b2 / 64) :: sextetChar (b2 % 64) ::
      b64encodeList rest

/-- String form of the base64 encoding, as returned by
`base64.b64encode(image_bytes).decode('utf-8')`. -/
def b64encode (bs : List Nat) : String := String.mk (b64encodeList bs)

/-- Standard base64 decoding: four characters to three bytes, final
quantum possibly padded.  `none` on input that is not a padded base64
encoding. -/
def b64decodeList : List Char → Option (List Nat)
  | [] => some []
  | c0 :: c1 :: c2 :: c3 :: rest =>
      if rest.isEmpty ∧ c2 = '=' ∧ c3 = '=' then do
        let v0 ← sextetVal c0
        let v1 ← sextetVal c1
        some [v0 * 4 + v1 / 16]
      else if rest.isEmpty ∧ c3 = '=' then do
        let v0 ← sextetVal c0
        let v1 ← sextetVal c1
        let v2 ← sextetVal c2
        some [v0 * 4 + v1 / 16, v1 % 16 * 16 + v2 / 4]
      else do
        let v0 ← sextetVal c0
        let v1 ← sextetVal c1
        let v2 ← sextetVal c2
        let v3 ← sextetVal c3
        let tail ← b64decodeList rest
        some ((v0 * 4 + v1 / 16) :: (v1 % 16 * 16 + v2 / 4) ::
              (v2 % 4 * 64 + v3) :: tail)
  | _ => none

/-- Base64 decoding of a string. -/
def b64decode (s : String) : Option (List Nat) := b64decodeList s.toList

/-- Target URL constant `API_URL` of hello.py. -/
def API_URL : String := "https://api.openai.com/v1/chat/completions"

/-- Model identifier constant `MODEL` of hello.py. -/
def MODEL : String := "gpt-4-vision-preview"

/-- Prompt used for the Object Detection mode. -/
def objectDetectionPrompt : String :=
  "Detect all objects in this image. For each object, provide: 1) the name of the object, 2) a confidence score from 0 to 1, and 3) a brief description. Format as a JSON with a list of objects."

/-- Prompt used for the Scene Analysis mode. -/
def sceneAnalysisPrompt : String :=
  "Analyze this scene. Describe: 1) the overall setting, 2) key elements in the scene, 3) the mood or atmosphere, and 4) any notable activities happening. Format as a JSON."

/-- Prompt used for the Text Recognition mode (the `else` branch). -/
def textRecognitionPrompt : String :=
  "Extract all visible text from this image. Provide: 1) the text content, 2) the location in the image (top, middle, bottom, left, right, etc.), and 3) confidence level for each text element. Format as a JSON."

/-- Prompt selection of `analyze_image` (the if/elif/else chain on the
mode string; the final branch is an unconditional `else`). -/
def promptFor (mode : String) : String :=
  if mode = "Object Detection" then objectDetectionPrompt
  else if mode = "Scene Analysis" then sceneAnalysisPrompt
  else textRecognitionPrompt

/-- An outbound HTTP request: URL, header list, JSON body, as passed to
`requests.post(API_URL, headers=headers, json=payload)`. -/
structure VisionRequest where
  url : String
  headers : List (String × String)
  body : JVal
deriving Repr

/-- Outcome of the HTTP call as observed through
`requests.post` + `raise_for_status()` + `response.json()`:
a parsed JSON body on success; a `requests.exceptions.RequestException`
with message `e` for transport errors and error HTTP statuses; a
JSON-decode failure of the response body. -/
inductive HttpOutcome where
  | success (body : JVal)
  | requestError (e : String)
  | jsonError
deriving Repr

/-- Observable effects of one `analyze_image` call: an `st.error` with an
exact message, the `st.error` of the generic handler (whose message is
"An unexpected error occurred: " followed by interpreter-supplied
exception text), and the outbound POST. -/
inductive Effect where
  | stError (msg : String)
  | stErrorOther
  | httpPost (req : VisionRequest)
deriving Repr

/-- Result of a Python call: a value was returned (here `none` models
Python `None`), or an exception escaped the function unhandled. -/
inductive PyResult where
  | thrown
  | returned (v : Option JVal)
deriving Repr

/-- Headers dictionary built by `analyze_image`. -/
def buildHeaders (apiKey : String) : List (String × String) :=
  [("Content-Type", "application/json"),
   ("Authorization", "Bearer " ++ apiKey)]

/-- Request payload built by `analyze_image`: fixed model, a single user
message holding the prompt text part and the image-url part with high
detail, and the 800-token cap. -/
def buildPayload (prompt base64_image : String) : JVal :=
  .jobj [
    ("model", .jstr MODEL),
    ("messages", .jarr [
      .jobj [
        ("role", .jstr "user"),
        ("content", .jarr [
          .jobj [("type", .jstr "text"), ("text", .jstr prompt)],
          .jobj [("type", .jstr "image_url"),
                 ("image_url", .jobj [
                   ("url", .jstr ("data:image/jpeg;base64," ++ base64_image)),
                   ("detail", .jstr "high")])]])]]),
    ("max_tokens", .jnum 800)]

/-- The complete POST request issued by `analyze_image`. -/
def buildRequest (apiKey mode base64_image : String) : VisionRequest :=
  ⟨API_URL, buildHeaders apiKey, buildPayload (promptFor mode) base64_image⟩

section Core

variable {Img : Type}

/-- Embedding of `encode_image`: save the image as JPEG via the PIL
encoder `jpegSave` (an abstract parameter; `none` means PIL raises, and
`encode_image` has no handler of its own), then base64-encode the bytes.
The numpy-array branch merely converts the representation before saving
and is absorbed into `jpegSave`. -/
def encode_image (jpegSave : Img → Option (List Nat)) (image : Img) :
    Option String :=
  (jpegSave image).map b64encode

/-- Response handling inside the `try` block of `analyze_image`:
`if 'choices' in result and len(result['choices']) > 0` then return
`result['choices'][0]['message']['content']`, else report the
unexpected-format error; any exception raised on the way is caught by the
generic handler. -/
def handleResponse (req : VisionRequest) (result : JVal) :
    PyResult × List Effect :=
  match pyContains "choices" result with
  | none => (.returned none, [.httpPost req, .stErrorOther])
  | some false =>
      (.returned none, [.httpPost req, .stError "Unexpected API response format."])
  | some true =>
      match pySubscript "choices" result with
      | none => (.returned none, [.httpPost req, .stErrorOther])
      | some choices =>
          match pyLen choices with
          | none => (.returned none, [.httpPost req, .stErrorOther])
          | some n =>
              if n > 0 then
                match pyIndex0 choices with
                | none => (.returned none, [.httpPost req, .stErrorOther])
                | some c0 =>
                    match pySubscript "message" c0 with
                    | none => (.returned none, [.httpPost req, .stErrorOther])
                    | some m =>
                        match pySubscript "content" m with
                        | none => (.returned none, [.httpPost req, .stErrorOther])
                        | some content =>
                            (.returned (some content), [.httpPost req])
              else
                (.returned none,
                 [.httpPost req, .stError "Unexpected API response format."])

/-- Embedding of `analyze_image`: abort with an error if the credential
is empty; encode the image (outside the `try`, so an encoder failure
propagates); build the request; POST once; extract the first choice's
message content, mapping exceptions to the two `except` handlers. -/
def analyze_image (apiKey : String) (jpegSave : Img → Option (List Nat))
    (http : VisionRequest → HttpOutcome) (image : Img) (mode : String) :
    PyResult × List Effect :=
  if apiKey = "" then
    (.returned none,
     [.stError "Please provide an OpenAI API key to use this feature!"])
  else
    match encode_image jpegSave image with
    | none => (.thrown, [])
    | some base64_image =>
        let req := buildRequest apiKey mode base64_image
        match http req with
        | .requestError e =>
            (.returned none,
             [.httpPost req, .stError ("API request failed: " ++ e)])
        | .jsonError => (.returned none, [.httpPost req, .stErrorOther])
        | .success result => handleResponse req result

end Core

/-- Requests posted among a list of effects. -/
def postsOf : List Effect → List VisionRequest
  | [] => []
  | .httpPost r :: rest => r :: postsOf rest
  | _ :: rest => postsOf rest

/-- Exact error messages reported among a list of effects. -/
def errorsOf : List Effect → List String
  | [] => []
  | .stError m :: rest => m :: errorsOf rest
  | _ :: rest => errorsOf rest

/-- Display loop of the upload tab over `parsed_results["objects"]`:
for each entry, compare `obj["confidence"]` against the threshold and,
when it meets it, write the entry (its name is read first, so a missing
name raises before anything of the entry is written).  The first
component collects the entries written; the second records whether the
surrounding `except` handler fired (writing the could-not-parse notice
and ending the loop).  Python compares booleans with floats numerically,
so a boolean confidence is coerced; any other non-number raises. -/
def displayObjectsLoop (threshold : ℚ) : List JVal → List JVal × Bool
  | [] => ([], false)
  | obj :: rest =>
      match pySubscript "confidence" obj with
      | none => ([], true)
      | some cv =>
          match cv with
          | .jnum q =>
              if threshold ≤ q then
                match pySubscript "name" obj with
                | none => ([], true)
                | some _ =>
                    let out := displayObjectsLoop threshold rest
                    (obj :: out.1, out.2)
              else displayObjectsLoop threshold rest
          | .jbool b =>
              if threshold ≤ (if b then 1 else 0) then
                match pySubscript "name" obj with
                | none => ([], true)
                | some _ =>
                    let out := displayObjectsLoop threshold rest
                    (obj :: out.1, out.2)
              else displayObjectsLoop threshold rest
          | _ => ([], true)

/-- Structured-results display of the upload tab: `parsed` is the outcome
of `json.loads(results)` (`none` when it raises).  When the parse
succeeds, the value is a dictionary and it has an `objects` key, the loop
runs over that value; iterating a non-list yields keys of a dictionary or
characters of a string (which then raise on `obj["confidence"]`) and
raises at once on non-iterables.  Returns the entries displayed and
whether the could-not-parse notice was written. -/
def displayUploadResults (threshold : ℚ) (parsed : Option JVal) :
    List JVal × Bool :=
  match parsed with
  | none => ([], true)
  | some p =>
      match p with
      | .jobj kvs =>
          if kvs.any (fun kv => kv.1 == "objects") then
            match kvs.lookup "objects" with
            | some (.jarr objs) => displayObjectsLoop threshold objs
            | some (.jobj []) => ([], false)
            | some (.jstr s) => if s.isEmpty then ([], false) else ([], true)
            | _ => ([], true)
          else ([], false)
      | _ => ([], false)

/-- Detection modes offered by the sidebar, as the closed enum the spec
describes. -/
inductive Mode where
  | objectDetection
  | sceneAnalysis
  | textRecognition
deriving Repr, DecidableEq

/-- Label of each mode as it appears in the sidebar radio widget. -/
def modeLabel : Mode → String
  | .objectDetection => "Object Detection"
  | .sceneAnalysis => "Scene Analysis"
  | .textRecognition => "Text Recognition"

/-- Modelled from the spec: the tagged-variant prompt table the spec
asks for, each mode mapping to its fixed instruction string.  Compared
against the string-keyed `promptFor` of the source. -/
def promptTemplate : Mode → String
  | .objectDetection => objectDetectionPrompt
  | .sceneAnalysis => sceneAnalysisPrompt
  | .textRecognition => textRecognitionPrompt

/-- Modelled from the spec: the entries of the object list whose
confidence meets or exceeds the configured threshold — the set the
presentation layer is said to display.  Compared against the loop
`displayObjectsLoop` embedded from the source. -/
def specDisplayedEntries (threshold : ℚ) (objs : List JVal) : List JVal :=
  objs.filter (fun obj =>
    match pySubscript "confidence" obj with
    | some (.jnum q) => decide (threshold ≤ q)
    | _ => false)

/-! ### Helper lemmas -/

theorem lookup_some_any {β : Type} (kvs : List (String × β)) (k : String) (v : β)
    (h : kvs.lookup k = some v) : kvs.any (fun kv => kv.1 == k) = true := by
  induction kvs with
  | nil => simp [List.lookup] at h
  | cons hd tl ih =>
      obtain ⟨a, b⟩ := hd
      rw [List.lookup] at h
      cases hcmp : (k == a) with
      | true =>
          have : a = k := (beq_iff_eq.mp hcmp).symm
          simp [List.any_cons, this]
      | false =>
          rw [hcmp] at h
          simp [List.any_cons, ih h]

theorem lookup_none_any {β : Type} (kvs : List (String × β)) (k : String)
    (h : kvs.lookup k = none) : kvs.any (fun kv => kv.1 == k) = false := by
  induction kvs with
  | nil => simp
  | cons hd tl ih =>
      obtain ⟨a, b⟩ := hd
      rw [List.lookup] at h
      cases hcmp : (k == a) with
      | true => rw [hcmp] at h; exact absurd h (by simp)
      | false =>
          rw [hcmp] at h
          have hne : ¬(a == k) = true := by
            intro hc
            exact absurd (beq_iff_eq.mpr (beq_iff_eq.mp hc).symm) (by simp [hcmp])
          simp [List.any_cons, ih h, hne]

/-! ### Claim theorems -/

/-- C2: with an empty credential, `analyze_image` returns `None`, reports
the missing-credential error, and performs no network I/O (no POST is
among its effects), for every image, mode, encoder and HTTP layer. -/
theorem analyze_image_empty_credential {Img : Type}
    (jpegSave : Img → Option (List Nat)) (http : VisionRequest → HttpOutcome)
    (image : Img) (mode : String) :
    analyze_image "" jpegSave http image mode =
      (.returned none,
       [.stError "Please provide an OpenAI API key to use this feature!"]) ∧
    postsOf (analyze_image "" jpegSave http image mode).2 = [] := by
  constructor <;> rfl

/-- C5: when the HTTP layer fails (transport error or error HTTP status,
surfaced as a `requests` exception with text `e`), `analyze_image` returns
`None`, attempts exactly one POST, and reports exactly one error whose
message contains the underlying error text `e`. -/
theorem analyze_image_transport_failure {Img : Type} (apiKey : String)
    (jpegSave : Img → Option (List Nat)) (http : VisionRequest → HttpOutcome)
    (image : Img) (mode : String) (bytes : List Nat) (e : String)
    (hkey : apiKey ≠ "") (henc : jpegSave image = some bytes)
    (hhttp : ∀ r, http r = .requestError e) :
    analyze_image apiKey jpegSave http image mode =
      (.returned none,
       [.httpPost (buildRequest apiKey mode (b64encode bytes)),
        .stError ("API request failed: " ++ e)]) ∧
    (postsOf (analyze_image apiKey jpegSave http image mode).2).length = 1 ∧
    errorsOf (analyze_image apiKey jpegSave http image mode).2 =
      ["API request failed: " ++ e] ∧
    ∃ pre suf, errorsOf (analyze_image apiKey jpegSave http image mode).2 =
      [pre ++ e ++ suf] := by
  have hmain : analyze_image apiKey jpegSave http image mode =
      (.returned none,
       [.httpPost (buildRequest apiKey mode (b64encode bytes)),
        .stError ("API request failed: " ++ e)]) := by
    simp [analyze_image, encode_image, henc, hhttp, hkey]
  refine ⟨hmain, ?_, ?_, ?_⟩
  · rw [hmain]; rfl
  · rw [hmain]; rfl
  · exact ⟨"API request failed: ", "", by rw [hmain]; simp [errorsOf]⟩

/-- Witness for C5 at a concrete credential, image, encoder and failing
HTTP layer. -/
theorem analyze_image_transport_failure_witness :
    ("k" : String) ≠ "" ∧
    analyze_image "k" (fun _ : Unit => some [1, 2, 3])
        (fun _ => .requestError "connection refused") () "Object Detection" =
      (.returned none,
       [.httpPost (buildRequest "k" "Object Detection" (b64encode [1, 2, 3])),
        .stError ("API request failed: " ++ "connection refused")]) :=
  ⟨by decide,
   (analyze_image_transport_failure "k" (fun _ : Unit => some [1, 2, 3])
      (fun _ => .requestError "connection refused") () "Object Detection"
      [1, 2, 3] "connection refused" (by decide) rfl (fun _ => rfl)).1⟩

/-- C9: the encoder has no error path of its own — when the JPEG encoder
raises, the exception propagates out of `analyze_image` unhandled (the
encoding happens before the `try` block): no error is reported through
the client's handlers and no POST is made. -/
theorem analyze_image_encoder_failure_propagates {Img : Type}
    (apiKey : String) (jpegSave : Img → Option (List Nat))
    (http : VisionRequest → HttpOutcome) (image : Img) (mode : String)
    (hkey : apiKey ≠ "") (henc : jpegSave image = none) :
    analyze_image apiKey jpegSave http image mode = (.thrown, []) := by
  simp [analyze_image, encode_image, henc, hkey]

/-- Witness for C9 with a concrete failing encoder. -/
theorem analyze_image_encoder_failure_propagates_witness :
    ("k" : String) ≠ "" ∧
    analyze_image "k" (fun _ : Unit => none)
        (fun _ => .jsonError) () "Scene Analysis" = (.thrown, []) :=
  ⟨by decide,
   analyze_image_encoder_failure_propagates "k" (fun _ : Unit => none)
     (fun _ => .jsonError) () "Scene Analysis" (by decide) rfl⟩

/-- C8: the prompt actually sent agrees, on each of the three sidebar
modes, with the closed three-case template table the spec describes, and
the three templates are pairwise distinct strings. -/
theorem promptFor_closed_enum :
    (∀ m : Mode, promptFor (modeLabel m) = promptTemplate m) ∧
    ((promptTemplate .objectDetection == promptTemplate .sceneAnalysis) = false) ∧
    ((promptTemplate .objectDetection == promptTemplate .textRecognition) = false) ∧
    ((promptTemplate .sceneAnalysis == promptTemplate .textRecognition) = false) := by
  refine ⟨fun m => ?_, by decide, by decide, by decide⟩
  cases m <;> rfl

/-- C10: every mode string other than the two explicitly tested ones is
routed to the Text Recognition prompt — the third branch is an
unconditional `else`, not a comparison with "Text Recognition". -/
theorem promptFor_default_catch_all (mode : String)
    (h1 : mode ≠ "Object Detection") (h2 : mode ≠ "Scene Analysis") :
    promptFor mode = textRecognitionPrompt := by
  simp [promptFor, h1, h2]

/-- Witness for C10 at a string outside the three documented modes. -/
theorem promptFor_default_catch_all_witness :
    ("Totally Unknown" : String) ≠ "Object Detection" ∧
    ("Totally Unknown" : String) ≠ "Scene Analysis" ∧
    promptFor "Totally Unknown" = textRecognitionPrompt :=
  ⟨by decide, by decide,
   promptFor_default_catch_all "Totally Unknown" (by decide) (by decide)⟩

theorem pySubscript_jobj (k : String) (kvs : List (String × JVal)) :
    pySubscript k (.jobj kvs) = kvs.lookup k := rfl

theorem postsOf_handleResponse (req : VisionRequest) (result : JVal) :
    postsOf (handleResponse req result).2 = [req] := by
  unfold handleResponse
  repeat' split
  all_goals rfl

/-- C1: with a non-empty credential, a working encoder, and an HTTP
response whose JSON body holds a non-empty `choices` array whose first
entry has `message.content` equal to the string `x`, `analyze_image`
returns exactly `x`, verbatim and unparsed, and reports no error. -/
theorem analyze_image_success_content {Img : Type} (apiKey : String)
    (jpegSave : Img → Option (List Nat)) (http : VisionRequest → HttpOutcome)
    (image : Img) (mode : String) (bytes : List Nat)
    (kvs : List (String × JVal)) (c0 : JVal) (rest : List JVal)
    (m : JVal) (x : String)
    (hkey : apiKey ≠ "") (henc : jpegSave image = some bytes)
    (hhttp : http (buildRequest apiKey mode (b64encode bytes)) =
      .success (.jobj kvs))
    (hchoices : kvs.lookup "choices" = some (.jarr (c0 :: rest)))
    (hmsg : pySubscript "message" c0 = some m)
    (hcontent : pySubscript "content" m = some (.jstr x)) :
    analyze_image apiKey jpegSave http image mode =
      (.returned (some (.jstr x)),
       [.httpPost (buildRequest apiKey mode (b64encode bytes))]) ∧
    errorsOf (analyze_image apiKey jpegSave http image mode).2 = [] := by
  have hany := lookup_some_any kvs "choices" _ hchoices
  have hmain : analyze_image apiKey jpegSave http image mode =
      (.returned (some (.jstr x)),
       [.httpPost (buildRequest apiKey mode (b64encode bytes))]) := by
    simp only [analyze_image, encode_image, henc, Option.map_some',
      if_neg hkey]
    rw [hhttp]
    simp [handleResponse, pyContains, hany, pySubscript_jobj, hchoices, pyLen,
      pyIndex0, hmsg, hcontent]
  exact ⟨hmain, by rw [hmain]; simp [errorsOf]⟩

/-- Witness for C1 at a concrete credential, encoder and mocked success
response. -/
theorem analyze_image_success_content_witness :
    ("k" : String) ≠ "" ∧
    analyze_image "k" (fun _ : Unit => some [1, 2, 3])
        (fun _ => .success (.jobj [("choices", .jarr [.jobj
          [("message", .jobj [("content", .jstr "X")])]])]))
        () "Object Detection" =
      (.returned (some (.jstr "X")),
       [.httpPost (buildRequest "k" "Object Detection" (b64encode [1, 2, 3]))]) :=
  ⟨by decide,
   (analyze_image_success_content "k" (fun _ : Unit => some [1, 2, 3])
      (fun _ => .success (.jobj [("choices", .jarr [.jobj
        [("message", .jobj [("content", .jstr "X")])]])]))
      () "Object Detection" [1, 2, 3]
      [("choices", .jarr [.jobj [("message", .jobj [("content", .jstr "X")])]])]
      (.jobj [("message", .jobj [("content", .jstr "X")])]) []
      (.jobj [("content", .jstr "X")]) "X"
      (by decide) rfl rfl rfl rfl rfl).1⟩

/-- C3: with a non-empty credential and a working encoder, `analyze_image`
issues exactly one POST, whatever the HTTP layer answers; the request goes
to the fixed HTTPS endpoint, carries exactly the JSON content type and
bearer-credential headers, and its JSON body has exactly the fields
`model` (the fixed identifier), `messages` (one user message whose content
is the prompt text part followed by the high-detail data-URI image part)
and `max_tokens` equal to 800. -/
theorem analyze_image_request_shape {Img : Type} (apiKey : String)
    (jpegSave : Img → Option (List Nat)) (http : VisionRequest → HttpOutcome)
    (image : Img) (mode : String) (bytes : List Nat)
    (hkey : apiKey ≠ "") (henc : jpegSave image = some bytes) :
    postsOf (analyze_image apiKey jpegSave http image mode).2 =
      [buildRequest apiKey mode (b64encode bytes)] ∧
    (buildRequest apiKey mode (b64encode bytes)).url = API_URL ∧
    API_URL.toList.take 8 = "https://".toList ∧
    (buildRequest apiKey mode (b64encode bytes)).headers =
      [("Content-Type", "application/json"),
       ("Authorization", "Bearer " ++ apiKey)] ∧
    (buildRequest apiKey mode (b64encode bytes)).body =
      .jobj [
        ("model", .jstr MODEL),
        ("messages", .jarr [
          .jobj [
            ("role", .jstr "user"),
            ("content", .jarr [
              .jobj [("type", .jstr "text"), ("text", .jstr (promptFor mode))],
              .jobj [("type", .jstr "image_url"),
                     ("image_url", .jobj [
                       ("url", .jstr ("data:image/jpeg;base64," ++
                          b64encode bytes)),
                       ("detail", .jstr "high")])]])]]),
        ("max_tokens", .jnum 800)] := by
  refine ⟨?_, rfl, by decide, rfl, rfl⟩
  simp only [analyze_image, encode_image, henc, Option.map_some', if_neg hkey]
  cases hresp : http (buildRequest apiKey mode (b64encode bytes)) with
  | success body => exact postsOf_handleResponse _ body
  | requestError e => rfl
  | jsonError => rfl

/-- Witness for C3 at a concrete credential and encoder. -/
theorem analyze_image_request_shape_witness :
    ("k" : String) ≠ "" ∧
    postsOf (analyze_image "k" (fun _ : Unit => some [7])
        (fun _ => .jsonError) () "Scene Analysis").2 =
      [buildRequest "k" "Scene Analysis" (b64encode [7])] :=
  ⟨by decide,
   (analyze_image_request_shape "k" (fun _ : Unit => some [7])
      (fun _ => .jsonError) () "Scene Analysis" [7] (by decide) rfl).1⟩

/-- C4: when the response body is a JSON object that lacks a `choices`
key, or whose `choices` value is an empty list, `analyze_image` reports
the generic unexpected-format error and returns `None`. -/
theorem analyze_image_unexpected_format {Img : Type} (apiKey : String)
    (jpegSave : Img → Option (List Nat)) (http : VisionRequest → HttpOutcome)
    (image : Img) (mode : String) (bytes : List Nat)
    (kvs : List (String × JVal))
    (hkey : apiKey ≠ "") (henc : jpegSave image = some bytes)
    (hhttp : http (buildRequest apiKey mode (b64encode bytes)) =
      .success (.jobj kvs))
    (hno : kvs.lookup "choices" = none ∨
           kvs.lookup "choices" = some (.jarr [])) :
    analyze_image apiKey jpegSave http image mode =
      (.returned none,
       [.httpPost (buildRequest apiKey mode (b64encode bytes)),
        .stError "Unexpected API response format."]) := by
  simp only [analyze_image, encode_image, henc, Option.map_some', if_neg hkey]
  rw [hhttp]
  cases hno with
  | inl h =>
      have hany := lookup_none_any kvs "choices" h
      simp [handleResponse, pyContains, hany]
  | inr h =>
      have hany := lookup_some_any kvs "choices" _ h
      simp [handleResponse, pyContains, hany, pySubscript, h, pyLen]

/-- Witness for C4 at a concrete mocked response with an empty `choices`
list. -/
theorem analyze_image_unexpected_format_witness :
    ("k" : String) ≠ "" ∧
    analyze_image "k" (fun _ : Unit => some [7])
        (fun _ => .success (.jobj [("choices", .jarr [])])) () "Text Recognition" =
      (.returned none,
       [.httpPost (buildRequest "k" "Text Recognition" (b64encode [7])),
        .stError "Unexpected API response format."]) :=
  ⟨by decide,
   analyze_image_unexpected_format "k" (fun _ : Unit => some [7])
     (fun _ => .success (.jobj [("choices", .jarr [])])) () "Text Recognition"
     [7] [("choices", .jarr [])] (by decide) rfl rfl (Or.inr rfl)⟩

/-! ### Base64 lemmas -/

theorem b64Alphabet_length : b64Alphabet.length = 64 := by decide

theorem sextetVal_sextetChar : ∀ n < 64, sextetVal (sextetChar n) = some n := by
  decide

theorem sextetChar_ne_pad : ∀ n < 64, sextetChar n ≠ '=' := by decide

theorem sextetChar_mem (n : Nat) : sextetChar n ∈ b64Alphabet := by
  by_cases h : n < 64
  · rw [sextetChar, List.getD_eq_getElem _ _ (by rw [b64Alphabet_length]; exact h)]
    exact List.getElem_mem _
  · rw [sextetChar, List.getD_eq_default _ _ (by rw [b64Alphabet_length]; omega)]
    decide

theorem b64Alphabet_no_newline : ∀ c ∈ b64Alphabet, c ≠ '\n' ∧ c ≠ '\r' := by
  decide

theorem b64encodeList_mem :
    ∀ bs : List Nat, ∀ c ∈ b64encodeList bs, c ∈ b64Alphabet ∨ c = '='
  | [], _, hc => absurd hc (by simp [b64encodeList])
  | [b0], c, hc => by
      simp only [b64encodeList, List.mem_cons, List.not_mem_nil, or_false] at hc
      rcases hc with rfl | rfl | rfl | rfl
      · exact Or.inl (sextetChar_mem _)
      · exact Or.inl (sextetChar_mem _)
      · exact Or.inr rfl
      · exact Or.inr rfl
  | [b0, b1], c, hc => by
      simp only [b64encodeList, List.mem_cons, List.not_mem_nil, or_false] at hc
      rcases hc with rfl | rfl | rfl | rfl
      · exact Or.inl (sextetChar_mem _)
      · exact Or.inl (sextetChar_mem _)
      · exact Or.inl (sextetChar_mem _)
      · exact Or.inr rfl
  | b0 :: b1 :: b2 :: rest, c, hc => by
      have hc' : c = sextetChar (b0 / 4) ∨ c = sextetChar (b0 % 4 * 16 + b1 / 16) ∨
          c = sextetChar (b1 % 16 * 4 + b2 / 64) ∨ c = sextetChar (b2 % 64) ∨
          c ∈ b64encodeList rest := by
        have he : b64encodeList (b0 :: b1 :: b2 :: rest) =
            sextetChar (b0 / 4) :: sextetChar (b0 % 4 * 16 + b1 / 16) ::
            sextetChar (b1 % 16 * 4 + b2 / 64) :: sextetChar (b2 % 64) ::
            b64encodeList rest := rfl
        rw [he] at hc
        simpa only [List.mem_cons] using hc
      rcases hc' with rfl | rfl | rfl | rfl | hc'
      · exact Or.inl (sextetChar_mem _)
      · exact Or.inl (sextetChar_mem _)
      · exact Or.inl (sextetChar_mem _)
      · exact Or.inl (sextetChar_mem _)
      · exact b64encodeList_mem rest c hc'

theorem b64encodeList_length_mod4 :
    ∀ bs : List Nat, (b64encodeList bs).length % 4 = 0
  | [] => rfl
  | [b0] => by
      show ([sextetChar (b0 / 4), sextetChar (b0 % 4 * 16), '=', '=']).length % 4 = 0
      simp only [List.length_cons, List.length_nil]
  | [b0, b1] => by
      show ([sextetChar (b0 / 4), sextetChar (b0 % 4 * 16 + b1 / 16),
        sextetChar (b1 % 16 * 4), '=']).length % 4 = 0
      simp only [List.length_cons, List.length_nil]
  | b0 :: b1 :: b2 :: rest => by
      have ih := b64encodeList_length_mod4 rest
      show (sextetChar (b0 / 4) :: sextetChar (b0 % 4 * 16 + b1 / 16) ::
        sextetChar (b1 % 16 * 4 + b2 / 64) :: sextetChar (b2 % 64) ::
        b64encodeList rest).length % 4 = 0
      simp only [List.length_cons]
      omega

theorem b64_roundtrip :
    ∀ bs : List Nat, (∀ b ∈ bs, b < 256) →
      b64decodeList (b64encodeList bs) = some bs
  | [], _ => rfl
  | [b0], h => by
      have hb0 : b0 < 256 := h b0 (by simp)
      have h0 : b0 / 4 < 64 := by omega
      have h1 : b0 % 4 * 16 < 64 := by omega
      show b64decodeList [sextetChar (b0 / 4), sextetChar (b0 % 4 * 16),
        '=', '='] = some [b0]
      rw [b64decodeList]
      rw [if_pos (by simp)]
      rw [sextetVal_sextetChar _ h0, sextetVal_sextetChar _ h1]
      simp only [Option.bind_eq_bind, Option.some_bind, Option.some.injEq,
        List.cons.injEq, and_true]
      omega
  | [b0, b1], h => by
      have hb0 : b0 < 256 := h b0 (by simp)
      have hb1 : b1 < 256 := h b1 (by simp)
      have h0 : b0 / 4 < 64 := by omega
      have h1 : b0 % 4 * 16 + b1 / 16 < 64 := by omega
      have h2 : b1 % 16 * 4 < 64 := by omega
      show b64decodeList [sextetChar (b0 / 4),
        sextetChar (b0 % 4 * 16 + b1 / 16), sextetChar (b1 % 16 * 4), '='] =
        some [b0, b1]
      rw [b64decodeList]
      rw [if_neg (fun hcond => sextetChar_ne_pad _ h2 hcond.2.1)]
      rw [if_pos (by simp)]
      rw [sextetVal_sextetChar _ h0, sextetVal_sextetChar _ h1,
        sextetVal_sextetChar _ h2]
      simp only [Option.bind_eq_bind, Option.some_bind, Option.some.injEq,
        List.cons.injEq, and_true]
      constructor
      · omega
      · omega
  | b0 :: b1 :: b2 :: rest, h => by
      have hb0 : b0 < 256 := h b0 (by simp)
      have hb1 : b1 < 256 := h b1 (by simp)
      have hb2 : b2 < 256 := h b2 (by simp)
      have h0 : b0 / 4 < 64 := by omega
      have h1 : b0 % 4 * 16 + b1 / 16 < 64 := by omega
      have h2 : b1 % 16 * 4 + b2 / 64 < 64 := by omega
      have h3 : b2 % 64 < 64 := by omega
      have ih := b64_roundtrip rest (fun b hb => h b (by simp [hb]))
      show b64decodeList (sextetChar (b0 / 4) ::
        sextetChar (b0 % 4 * 16 + b1 / 16) ::
        sextetChar (b1 % 16 * 4 + b2 / 64) :: sextetChar (b2 % 64) ::
        b64encodeList rest) = some (b0 :: b1 :: b2 :: rest)
      rw [b64decodeList]
      rw [if_neg (fun hcond => sextetChar_ne_pad _ h2 hcond.2.1)]
      rw [if_neg (fun hcond => sextetChar_ne_pad _ h3 hcond.2)]
      rw [sextetVal_sextetChar _ h0, sextetVal_sextetChar _ h1,
        sextetVal_sextetChar _ h2, sextetVal_sextetChar _ h3, ih]
      simp only [Option.bind_eq_bind, Option.some_bind, Option.some.injEq,
        List.cons.injEq, and_true]
      refine ⟨by omega, by omega, by omega⟩

/-- C6: given a PIL JPEG codec honouring its contract (encoding the image
succeeds, and the produced byte stream is a valid JPEG decoding back to an
image of the same pixel dimensions), `encode_image` returns a base64 ASCII
string with no line breaks and full padding (every character is in the
base64 alphabet or is `=`, and the length is a multiple of four), whose
base64 decoding is exactly that JPEG byte stream — which decodes back to
the input's pixel dimensions. -/
theorem encode_image_roundtrip {Img : Type} (jpegSave : Img → Option (List Nat))
    (jpegDecode : List Nat → Option Img) (dims : Img → Nat × Nat)
    (image decoded : Img) (bytes : List Nat)
    (hsave : jpegSave image = some bytes)
    (hbytes : ∀ b ∈ bytes, b < 256)
    (hjpeg : jpegDecode bytes = some decoded)
    (hdims : dims decoded = dims image) :
    ∃ s, encode_image jpegSave image = some s ∧
      s = b64encode bytes ∧
      (∀ c ∈ s.toList, (c ∈ b64Alphabet ∨ c = '=') ∧ c ≠ '\n' ∧ c ≠ '\r') ∧
      s.toList.length % 4 = 0 ∧
      b64decode s = some bytes ∧
      ∃ img2, jpegDecode bytes = some img2 ∧ dims img2 = dims image := by
  refine ⟨b64encode bytes, by simp [encode_image, hsave], rfl, ?_, ?_, ?_,
    decoded, hjpeg, hdims⟩
  · intro c hc
    have hc' : c ∈ b64encodeList bytes := hc
    have hmem := b64encodeList_mem bytes c hc'
    refine ⟨hmem, ?_⟩
    cases hmem with
    | inl hin => exact b64Alphabet_no_newline c hin
    | inr heq => rw [heq]; exact ⟨by decide, by decide⟩
  · exact b64encodeList_length_mod4 bytes
  · exact b64_roundtrip bytes hbytes

/-- Witness for C6: a toy image type with a concrete codec satisfying the
JPEG contract. -/
theorem encode_image_roundtrip_witness :
    (fun _ : Unit => some [255, 216, 255, 224]) () = some [255, 216, 255, 224] ∧
    (∀ b ∈ [255, 216, 255, 224], b < 256) ∧
    (∃ s, encode_image (fun _ : Unit => some [255, 216, 255, 224]) () = some s ∧
      s = b64encode [255, 216, 255, 224] ∧
      (∀ c ∈ s.toList, (c ∈ b64Alphabet ∨ c = '=') ∧ c ≠ '\n' ∧ c ≠ '\r') ∧
      s.toList.length % 4 = 0 ∧
      b64decode s = some [255, 216, 255, 224] ∧
      ∃ img2, (fun bs => if bs = [255, 216, 255, 224]
          then some () else none) [255, 216, 255, 224] = some img2 ∧
        (fun _ : Unit => (2, 3)) img2 = (fun _ : Unit => (2, 3)) ()) :=
  ⟨rfl, by decide,
   encode_image_roundtrip (fun _ : Unit => some [255, 216, 255, 224])
     (fun bs => if bs = [255, 216, 255, 224] then some () else none)
     (fun _ => (2, 3)) () () [255, 216, 255, 224]
     rfl (by decide) (by simp) rfl⟩

theorem displayObjectsLoop_filter (threshold : ℚ) (objs : List JVal)
    (hwf : ∀ obj ∈ objs, ∃ q : ℚ,
      pySubscript "confidence" obj = some (.jnum q) ∧
      (threshold ≤ q → (pySubscript "name" obj).isSome = true)) :
    displayObjectsLoop threshold objs =
      (specDisplayedEntries threshold objs, false) := by
  induction objs with
  | nil => rfl
  | cons obj rest ih =>
      obtain ⟨q, hq, hname⟩ := hwf obj (List.mem_cons_self _ _)
      have ihr := ih (fun o ho => hwf o (List.mem_cons_of_mem _ ho))
      by_cases hle : threshold ≤ q
      · obtain ⟨nv, hnv⟩ := Option.isSome_iff_exists.mp (hname hle)
        simp [displayObjectsLoop, hq, hle, hnv, ihr,
          specDisplayedEntries, List.filter_cons]
      · simp [displayObjectsLoop, hq, hle, ihr,
          specDisplayedEntries, List.filter_cons]

/-- C7 (amended): when the parse of the result string yields a JSON
object with a list under `objects`, every entry of which is an object
with a numeric confidence (and carries a name whenever its confidence
meets the threshold), the upload tab displays exactly the entries whose
confidence meets or exceeds the threshold, and the could-not-parse notice
is not shown. -/
theorem displayUploadResults_filter (threshold : ℚ)
    (kvs : List (String × JVal)) (objs : List JVal)
    (hobjs : kvs.lookup "objects" = some (.jarr objs))
    (hwf : ∀ obj ∈ objs, ∃ q : ℚ,
      pySubscript "confidence" obj = some (.jnum q) ∧
      (threshold ≤ q → (pySubscript "name" obj).isSome = true)) :
    displayUploadResults threshold (some (.jobj kvs)) =
      (specDisplayedEntries threshold objs, false) := by
  have hany := lookup_some_any kvs "objects" _ hobjs
  simp only [displayUploadResults, hany, if_pos, hobjs,
    displayObjectsLoop_filter threshold objs hwf]

/-- Witness for C7's amended claim at the spec's own example: a cat entry
at confidence 0.9 and a dog entry at confidence 0.2, with threshold 0.5 —
only the cat entry is displayed. -/
theorem displayUploadResults_filter_witness :
    List.lookup "objects"
      [("objects", JVal.jarr
        [.jobj [("name", .jstr "cat"), ("confidence", .jnum (9 / 10))],
         .jobj [("name", .jstr "dog"), ("confidence", .jnum (2 / 10))]])] =
      some (.jarr
        [.jobj [("name", .jstr "cat"), ("confidence", .jnum (9 / 10))],
         .jobj [("name", .jstr "dog"), ("confidence", .jnum (2 / 10))]]) ∧
    displayUploadResults (1 / 2) (some (.jobj
      [("objects", JVal.jarr
        [.jobj [("name", .jstr "cat"), ("confidence", .jnum (9 / 10))],
         .jobj [("name", .jstr "dog"), ("confidence", .jnum (2 / 10))]])])) =
      (specDisplayedEntries (1 / 2)
        [.jobj [("name", .jstr "cat"), ("confidence", .jnum (9 / 10))],
         .jobj [("name", .jstr "dog"), ("confidence", .jnum (2 / 10))]], false) ∧
    specDisplayedEntries (1 / 2)
      [.jobj [("name", .jstr "cat"), ("confidence", .jnum (9 / 10))],
       .jobj [("name", .jstr "dog"), ("confidence", .jnum (2 / 10))]] =
      [.jobj [("name", .jstr "cat"), ("confidence", .jnum (9 / 10))]] :=
  ⟨rfl,
   displayUploadResults_filter (1 / 2)
     [("objects", JVal.jarr
       [.jobj [("name", .jstr "cat"), ("confidence", .jnum (9 / 10))],
        .jobj [("name", .jstr "dog"), ("confidence", .jnum (2 / 10))]])]
     [.jobj [("name", .jstr "cat"), ("confidence", .jnum (9 / 10))],
      .jobj [("name", .jstr "dog"), ("confidence", .jnum (2 / 10))]]
     rfl
     (by
       intro obj hob
       simp only [List.mem_cons, List.not_mem_nil, or_false] at hob
       rcases hob with rfl | rfl
       · exact ⟨9 / 10, rfl, fun _ => rfl⟩
       · exact ⟨2 / 10, rfl, fun _ => rfl⟩),
   by
     have h1 : ((2 : ℚ))⁻¹ ≤ 9 / 10 := by norm_num
     have h2 : ¬((2 : ℚ))⁻¹ ≤ 2 / 10 := by norm_num
     have hb : ("confidence" == "name") = false := rfl
     simp [specDisplayedEntries, List.filter_cons, List.filter_nil,
       pySubscript, List.lookup, hb, h1, h2]⟩

/-- Counterexample to C7 as stated: with threshold 0.5 and an `objects`
list whose first entry has no confidence key while the second is a dog
entry at confidence 0.9, the claim calls for the dog entry to be
displayed, but the loop raises on the first entry, the handler writes the
could-not-parse notice, and nothing at all is displayed: the displayed
list (length 0) differs from the claimed list (length 1). -/
theorem display_filter_claim_counterexample :
    displayUploadResults (1 / 2) (some (.jobj [("objects", JVal.jarr
      [.jobj [],
       .jobj [("name", .jstr "dog"), ("confidence", .jnum (9 / 10))]])])) =
      ([], true) ∧
    specDisplayedEntries (1 / 2)
      [.jobj [],
       .jobj [("name", .jstr "dog"), ("confidence", .jnum (9 / 10))]] =
      [.jobj [("name", .jstr "dog"), ("confidence", .jnum (9 / 10))]] ∧
    (List.length ([] : List JVal) == List.length
      [JVal.jobj [("name", .jstr "dog"), ("confidence", .jnum (9 / 10))]]) =
      false := by
  refine ⟨rfl, ?_, rfl⟩
  have h1 : ((2 : ℚ))⁻¹ ≤ 9 / 10 := by norm_num
  have hb : ("confidence" == "name") = false := rfl
  simp [specDisplayedEntries, List.filter_cons, List.filter_nil,
    pySubscript, List.lookup, hb, h1]
